import Mathlib

/-
Verification of `FreeRTOS_Blink_LED/blinky_task.c` (repository
levietduc0712/FreeRTOS_TivaC).

Shallow embedding conventions:
* `uint32_t` / `TickType_t` values are natural numbers taken modulo
  `U32 = 2 ^ 32 = 4294967296`; C unsigned subtraction is `usub32`.
* The C `float`/`double` rate factor `g_fSpeed` is embedded as a rational
  number `ℚ` (idealized real arithmetic; the spec's numeric claims are
  stated "within floating-point tolerance").
* FreeRTOS kernel primitives (`xQueueSend`, `xQueueReceive`,
  `vTaskDelayUntil`, `vTaskDelay`) and TivaC driver constants are not part
  of the analysed source file; where needed they are modelled from the
  specification's contract and marked as such in their doc comments.
-/

namespace Blinky

/-- The modulus of 32-bit unsigned machine arithmetic, `2 ^ 32`. -/
def U32 : ℕ := 4294967296

/-- C `uint32_t` subtraction `a - b`: wraparound modulo `2 ^ 32`. -/
def usub32 (a b : ℕ) : ℕ := (a % U32 + (U32 - b % U32)) % U32

/-- `#define BLINK_RATE 0.1` (blinky_task.c line 119): the step by which the
blink-rate factor is scaled. -/
def BLINK_RATE : ℚ := 1 / 10

/-- Modelled from the spec: the pending-status bit of input line A, the
speed-up button (TivaC driver constant `RIGHT_BUTTON` = GPIO pin 0, not part
of the analysed source). -/
def RIGHT_BUTTON : ℕ := 1

/-- Modelled from the spec: the pending-status bit of input line B, the
slow-down button (TivaC driver constant `LEFT_BUTTON` = GPIO pin 4, not part
of the analysed source). -/
def LEFT_BUTTON : ℕ := 16

/-- The state touched by the button interrupt handler: the shared rate
factor `g_fSpeed` (volatile float, line 124) and the debounce timestamp
`g_ui32TimeStamp` (volatile uint32_t, line 129). -/
structure ButtonState where
  g_fSpeed : ℚ
  g_ui32TimeStamp : ℕ
deriving Repr, DecidableEq

/-- The initial values of the two globals: `g_fSpeed = 1`,
`g_ui32TimeStamp = 0` (lines 124 and 129). -/
def initButtonState : ButtonState := { g_fSpeed := 1, g_ui32TimeStamp := 0 }

/-- `xButtonsHandler` (lines 281-307): one invocation of the button
interrupt handler.  `ui32Status` is the pending-status mask read by
`GPIOIntStatus`; `tick` is the value returned by `xTaskGetTickCount()`
during this invocation (the handler runs in bounded short time, so the two
calls on lines 292 and 306 are modelled as returning the same tick).
If the elapsed ticks since the stored timestamp exceed 200, the rate
factor is multiplied by `(1 + BLINK_RATE)` when the RIGHT_BUTTON bit is
set, else by `(1 - BLINK_RATE)` when the LEFT_BUTTON bit is set; the
timestamp is then updated unconditionally. -/
def xButtonsHandler (ui32Status tick : ℕ) (s : ButtonState) : ButtonState :=
  { g_fSpeed :=
      if usub32 tick s.g_ui32TimeStamp > 200 then
        if ui32Status &&& RIGHT_BUTTON = RIGHT_BUTTON then
          s.g_fSpeed * (1 + BLINK_RATE)
        else if ui32Status &&& LEFT_BUTTON = LEFT_BUTTON then
          s.g_fSpeed * (1 - BLINK_RATE)
        else s.g_fSpeed
      else s.g_fSpeed,
    g_ui32TimeStamp := tick % U32 }

/-- A sequence of button interrupts, each a pair (status mask, tick),
processed in order by `xButtonsHandler`. -/
def runButtonEvents (evs : List (ℕ × ℕ)) (s : ButtonState) : ButtonState :=
  match evs with
  | [] => s
  | (st, t) :: rest => runButtonEvents rest (xButtonsHandler st t s)

/-- Event ticks strictly increase with gaps of more than 200 ticks from the
previous accepted timestamp `prev`, and stay below `2 ^ 32`. -/
def spaced : ℕ → List (ℕ × ℕ) → Bool
  | _, [] => true
  | prev, (_, t) :: rest => decide (prev + 200 < t) && decide (t < U32) && spaced t rest

/-- Every event in the list is a pure press of one of the two lines. -/
def validEv (evs : List (ℕ × ℕ)) : Prop :=
  ∀ p ∈ evs, p.1 = RIGHT_BUTTON ∨ p.1 = LEFT_BUTTON

/-- Number of speed-up (line A) events in the list. -/
def countUp (evs : List (ℕ × ℕ)) : ℕ :=
  (evs.filter (fun p => p.1 == RIGHT_BUTTON)).length

/-- Number of slow-down (line B) events in the list. -/
def countDown (evs : List (ℕ × ℕ)) : ℕ :=
  (evs.filter (fun p => p.1 == LEFT_BUTTON)).length

/-- Modelled from the spec: outcome of the bounded-queue send contract
(`send(item, timeout) -> Ok | Err(WouldBlock | TimedOut)`); `blocked`
stands for the caller suspending on a non-zero timeout. -/
inductive SendOutcome
  | ok
  | wouldBlock
  | blocked
deriving Repr, DecidableEq

/-- Modelled from the spec: outcome of the bounded-queue receive contract
(`receive(timeout) -> Ok(item) | Err(WouldBlock | TimedOut)`). -/
inductive RecvOutcome
  | ok (v : ℕ)
  | wouldBlock
  | blocked
deriving Repr, DecidableEq

/-- Modelled from the spec: a bounded FIFO queue with capacity fixed at
construction (the FreeRTOS queue object behind `QueueHandle_t`). -/
structure Queue where
  capacity : ℕ
  items : List ℕ
deriving Repr, DecidableEq

/-- `xQueueCreate( cap, sizeof( uint32_t ) )`: a fresh empty queue of the
given capacity (line 161 creates it with capacity 1). -/
def xQueueCreate (cap : ℕ) : Queue := { capacity := cap, items := [] }

/-- FreeRTOS `portMAX_DELAY` with 32-bit ticks: the infinite-timeout
sentinel `0xffffffff`. -/
def portMAX_DELAY : ℕ := U32 - 1

/-- Modelled from the spec: queue send with a timeout.  If the queue has a
free slot the item is appended and the send succeeds; on a full queue a
zero timeout fails immediately with `wouldBlock`, and a non-zero timeout
suspends the caller. -/
def Queue.send (q : Queue) (v : ℕ) (ticksToWait : ℕ) : SendOutcome × Queue :=
  if q.items.length < q.capacity then
    (SendOutcome.ok, { q with items := q.items ++ [v] })
  else if ticksToWait = 0 then (SendOutcome.wouldBlock, q)
  else (SendOutcome.blocked, q)

/-- Modelled from the spec: queue receive with a timeout.  A non-empty
queue yields its oldest item; an empty queue fails immediately on a zero
timeout and suspends the caller otherwise. -/
def Queue.receive (q : Queue) (ticksToWait : ℕ) : RecvOutcome × Queue :=
  match q.items with
  | v :: rest => (RecvOutcome.ok v, { q with items := rest })
  | [] =>
    if ticksToWait = 0 then (RecvOutcome.wouldBlock, q)
    else (RecvOutcome.blocked, q)

/-- Modelled from the spec: `pdMS_TO_TICKS( 1000UL )` with the 1 ms tick
the spec assumes ("producer period base = 1000 ticks"), i.e.
`#define mainQUEUE_SEND_FREQUENCY_MS` (line 113). -/
def mainQUEUE_SEND_FREQUENCY_MS : ℕ := 1000

/-- C conversion of a non-negative floating value to `TickType_t`:
truncation toward zero. -/
def ticksOf (x : ℚ) : ℕ := (⌊x⌋).toNat

/-- The fixed payload `ulValueToSend = 100UL` of the producer (line 205). -/
def ulValueToSend : ℕ := 100

/-- The producer task state: its absolute wake time `xNextWakeTime`
(line 204) and the queue it sends to. -/
structure ProducerState where
  xNextWakeTime : ℕ
  queue : Queue
deriving Repr, DecidableEq

/-- One iteration of the `prvQueueSendTask` loop (lines 213-226):
`vTaskDelayUntil( &xNextWakeTime, mainQUEUE_SEND_FREQUENCY_MS * g_fSpeed )`
advances the absolute wake time by the float product truncated to ticks
(the task sleeps until that absolute tick), then
`xQueueSend( xQueue, &ulValueToSend, 0U )` performs a non-blocking send
whose result is ignored. -/
def prvQueueSendStep (g_fSpeed : ℚ) (s : ProducerState) : ProducerState × SendOutcome :=
  let wake := (s.xNextWakeTime + ticksOf ((mainQUEUE_SEND_FREQUENCY_MS : ℚ) * g_fSpeed)) % U32
  let r := s.queue.send ulValueToSend 0
  ({ xNextWakeTime := wake, queue := r.2 }, r.1)

/-- Modelled from the spec: TivaC driver constant `BLUE_LED_PIN`
(GPIO pin 2 mask) for the active LED state. -/
def BLUE_LED_PIN : ℕ := 4

/-- Modelled from the spec: TivaC driver constant `RED_LED_PIN`
(GPIO pin 1 mask) for the inactive LED state. -/
def RED_LED_PIN : ℕ := 2

/-- An observable action of the consumer task: a GPIO pin write
(`GPIOPinWrite(base, pins, value)`, the base omitted as constant) or a
relative delay (`vTaskDelay(ticks)`). -/
inductive Action
  | pinWrite (pins : ℕ) (value : ℕ)
  | taskDelay (ticks : ℕ)
deriving Repr, DecidableEq

/-- `static TickType_t xShortBlock = pdMS_TO_TICKS( 500 )` (line 233),
with the 1 ms tick: 500 ticks. -/
def xShortBlock : ℕ := 500

/-- The body of the `prvQueueReceiveTask` loop after a value has been
received (lines 247-257): when the value equals 100, set the blue LED
(active), delay `xShortBlock * g_fSpeed` truncated to ticks, then set the
red LED (inactive); any other value produces no action. -/
def prvQueueReceiveBody (g_fSpeed : ℚ) (ulReceivedValue : ℕ) : List Action :=
  if ulReceivedValue = 100 then
    [Action.pinWrite (BLUE_LED_PIN ||| RED_LED_PIN) BLUE_LED_PIN,
     Action.taskDelay (ticksOf ((xShortBlock : ℚ) * g_fSpeed)),
     Action.pinWrite (BLUE_LED_PIN ||| RED_LED_PIN) RED_LED_PIN]
  else []

/-- One iteration of the `prvQueueReceiveTask` loop (lines 238-258):
`xQueueReceive( xQueue, &ulReceivedValue, portMAX_DELAY )` blocks with
infinite timeout; `none` means the task stays blocked because the queue is
empty, `some` returns the emitted actions and the drained queue. -/
def prvQueueReceiveStep (g_fSpeed : ℚ) (q : Queue) : Option (List Action × Queue) :=
  match q.receive portMAX_DELAY with
  | (RecvOutcome.ok v, q2) => some (prvQueueReceiveBody g_fSpeed v, q2)
  | (_, _) => none

/-! ### Helper lemmas -/

/-- On in-range arguments with `b ≤ a`, 32-bit wraparound subtraction is
plain subtraction. -/
theorem usub32_eq_sub (a b : ℕ) (hba : b ≤ a) (ha : a < U32) :
    usub32 a b = a - b := by
  unfold usub32 U32 at *
  omega

/-- The handler always stores `tick % U32` into the timestamp field. -/
theorem xButtonsHandler_timeStamp (ui32Status tick : ℕ) (s : ButtonState) :
    (xButtonsHandler ui32Status tick s).g_ui32TimeStamp = tick % U32 := rfl

/-- A debounced (elapsed ≤ 200) invocation leaves the rate factor alone. -/
theorem xButtonsHandler_bounce (ui32Status tick : ℕ) (s : ButtonState)
    (h : usub32 tick s.g_ui32TimeStamp ≤ 200) :
    (xButtonsHandler ui32Status tick s).g_fSpeed = s.g_fSpeed := by
  simp only [xButtonsHandler]
  rw [if_neg (by omega)]

/-- An accepted invocation with the RIGHT_BUTTON bit set multiplies the
rate factor by `1 + BLINK_RATE`. -/
theorem xButtonsHandler_up (ui32Status tick : ℕ) (s : ButtonState)
    (h : usub32 tick s.g_ui32TimeStamp > 200)
    (hr : ui32Status &&& RIGHT_BUTTON = RIGHT_BUTTON) :
    (xButtonsHandler ui32Status tick s).g_fSpeed = s.g_fSpeed * (1 + BLINK_RATE) := by
  simp only [xButtonsHandler]
  rw [if_pos h, if_pos hr]

/-- An accepted invocation with the LEFT_BUTTON bit set but not the
RIGHT_BUTTON bit multiplies the rate factor by `1 - BLINK_RATE`. -/
theorem xButtonsHandler_down (ui32Status tick : ℕ) (s : ButtonState)
    (h : usub32 tick s.g_ui32TimeStamp > 200)
    (hnr : ¬ ui32Status &&& RIGHT_BUTTON = RIGHT_BUTTON)
    (hl : ui32Status &&& LEFT_BUTTON = LEFT_BUTTON) :
    (xButtonsHandler ui32Status tick s).g_fSpeed = s.g_fSpeed * (1 - BLINK_RATE) := by
  simp only [xButtonsHandler]
  rw [if_pos h, if_neg hnr, if_pos hl]

/-- Running a spaced list of pure single-line events multiplies the rate
factor by `(11/10)` per line-A event and `(9/10)` per line-B event. -/
theorem runButtonEvents_speed (evs : List (ℕ × ℕ)) :
    ∀ s : ButtonState, s.g_ui32TimeStamp < U32 →
      spaced s.g_ui32TimeStamp evs = true →
      validEv evs →
      (runButtonEvents evs s).g_fSpeed
        = s.g_fSpeed * (11 / 10) ^ countUp evs * (9 / 10) ^ countDown evs := by
  induction evs with
  | nil =>
    intro s _ _ _
    simp [runButtonEvents, countUp, countDown]
  | cons ev rest ih =>
    obtain ⟨st, t⟩ := ev
    intro s hlt hsp hv
    simp only [spaced, Bool.and_eq_true, decide_eq_true_eq] at hsp
    obtain ⟨⟨h1, h2⟩, h3⟩ := hsp
    have hacc : usub32 t s.g_ui32TimeStamp > 200 := by
      rw [usub32_eq_sub t s.g_ui32TimeStamp (by omega) h2]
      omega
    have hts : (xButtonsHandler st t s).g_ui32TimeStamp = t := by
      rw [xButtonsHandler_timeStamp, Nat.mod_eq_of_lt h2]
    have hvrest : validEv rest := fun p hp => hv p (List.mem_cons_of_mem _ hp)
    have hvev := hv (st, t) (List.mem_cons_self _ _)
    simp only [runButtonEvents]
    rcases hvev with hA | hB
    · have hst : st = RIGHT_BUTTON := hA
      subst hst
      have hspeed : (xButtonsHandler RIGHT_BUTTON t s).g_fSpeed
          = s.g_fSpeed * (11 / 10) := by
        rw [xButtonsHandler_up RIGHT_BUTTON t s hacc (by decide)]
        norm_num [BLINK_RATE]
      have hcu : countUp ((RIGHT_BUTTON, t) :: rest) = countUp rest + 1 := by
        simp [countUp, List.filter_cons, RIGHT_BUTTON]
      have hcd : countDown ((RIGHT_BUTTON, t) :: rest) = countDown rest := by
        simp [countDown, List.filter_cons, RIGHT_BUTTON, LEFT_BUTTON]
      rw [ih (xButtonsHandler RIGHT_BUTTON t s) (by rw [hts]; exact h2)
          (by rw [hts]; exact h3) hvrest,
        hspeed, hcu, hcd, pow_succ]
      ring
    · have hst : st = LEFT_BUTTON := hB
      subst hst
      have hspeed : (xButtonsHandler LEFT_BUTTON t s).g_fSpeed
          = s.g_fSpeed * (9 / 10) := by
        rw [xButtonsHandler_down LEFT_BUTTON t s hacc (by decide) (by decide)]
        norm_num [BLINK_RATE]
      have hcu : countUp ((LEFT_BUTTON, t) :: rest) = countUp rest := by
        simp [countUp, List.filter_cons, RIGHT_BUTTON, LEFT_BUTTON]
      have hcd : countDown ((LEFT_BUTTON, t) :: rest) = countDown rest + 1 := by
        simp [countDown, List.filter_cons, LEFT_BUTTON]
      rw [ih (xButtonsHandler LEFT_BUTTON t s) (by rw [hts]; exact h2)
          (by rw [hts]; exact h3) hvrest,
        hspeed, hcu, hcd, pow_succ]
      ring

/-! ### Claim theorems -/

/-- C1: an invocation of the button interrupt handler whose elapsed ticks
since the debounce timestamp are at most 200 leaves the rate factor
unchanged; consequently two triggers within 200 ticks of each other cause
at most one rate update — the second invocation never changes the rate
factor produced by the first. -/
theorem C1_debounce_discards (ui32Status tick : ℕ) (s : ButtonState) :
    (usub32 tick s.g_ui32TimeStamp ≤ 200 →
      (xButtonsHandler ui32Status tick s).g_fSpeed = s.g_fSpeed) ∧
    (∀ st1 st2 t1 t2 : ℕ, t1 ≤ t2 → t2 ≤ t1 + 200 → t2 < U32 →
      (xButtonsHandler st2 t2 (xButtonsHandler st1 t1 s)).g_fSpeed
        = (xButtonsHandler st1 t1 s).g_fSpeed) := by
  constructor
  · exact fun h => xButtonsHandler_bounce ui32Status tick s h
  · intro st1 st2 t1 t2 h12 hwin h2lt
    apply xButtonsHandler_bounce
    rw [xButtonsHandler_timeStamp, Nat.mod_eq_of_lt (by omega),
      usub32_eq_sub t2 t1 h12 h2lt]
    omega

/-- Witness for C1 at concrete inputs: a trigger at tick 100 against the
initial state (timestamp 0, elapsed 100 ≤ 200) leaves the rate factor 1,
and triggers at ticks 300 and 450 leave the post-300 rate unchanged. -/
theorem C1_debounce_discards_witness :
    (xButtonsHandler RIGHT_BUTTON 100 initButtonState).g_fSpeed
        = initButtonState.g_fSpeed ∧
    (xButtonsHandler LEFT_BUTTON 450
        (xButtonsHandler RIGHT_BUTTON 300 initButtonState)).g_fSpeed
      = (xButtonsHandler RIGHT_BUTTON 300 initButtonState).g_fSpeed :=
  ⟨(C1_debounce_discards RIGHT_BUTTON 100 initButtonState).1 (by decide),
   (C1_debounce_discards 0 0 initButtonState).2 RIGHT_BUTTON LEFT_BUTTON 300 450
     (by norm_num) (by norm_num) (by norm_num [U32])⟩

/-- C2: every invocation of the button interrupt handler stores the current
tick count (as a 32-bit value) into the debounce timestamp at the end,
unconditionally — in particular also when the event was discarded. -/
theorem C2_timestamp_unconditional (ui32Status tick : ℕ) (s : ButtonState) :
    (xButtonsHandler ui32Status tick s).g_ui32TimeStamp = tick % U32 :=
  xButtonsHandler_timeStamp ui32Status tick s

/-- C3: when the elapsed ticks since the debounce timestamp exceed 200, the
handler multiplies the rate factor by `(1 + 0.1)` if line A (RIGHT_BUTTON,
speed-up) fired, or by `(1 - 0.1)` if line B (LEFT_BUTTON, slow-down)
fired (line A being tested first). -/
theorem C3_accepted_update (ui32Status tick : ℕ) (s : ButtonState)
    (h : usub32 tick s.g_ui32TimeStamp > 200) :
    (ui32Status &&& RIGHT_BUTTON = RIGHT_BUTTON →
      (xButtonsHandler ui32Status tick s).g_fSpeed
        = s.g_fSpeed * (1 + BLINK_RATE)) ∧
    (¬ ui32Status &&& RIGHT_BUTTON = RIGHT_BUTTON →
      ui32Status &&& LEFT_BUTTON = LEFT_BUTTON →
      (xButtonsHandler ui32Status tick s).g_fSpeed
        = s.g_fSpeed * (1 - BLINK_RATE)) :=
  ⟨fun hr => xButtonsHandler_up ui32Status tick s h hr,
   fun hnr hl => xButtonsHandler_down ui32Status tick s h hnr hl⟩

/-- Witness for C3: a line-A press at tick 300 from the initial state
multiplies the rate factor 1 by `1 + BLINK_RATE`. -/
theorem C3_accepted_update_witness :
    (xButtonsHandler RIGHT_BUTTON 300 initButtonState).g_fSpeed
      = initButtonState.g_fSpeed * (1 + BLINK_RATE) :=
  (C3_accepted_update RIGHT_BUTTON 300 initButtonState (by decide)).1 (by decide)

/-- The state after the C4 scenario's first event: line A at tick 0 from
the initial state. -/
def c4_afterA : ButtonState := xButtonsHandler RIGHT_BUTTON 0 initButtonState

/-- The state after the C4 scenario's second event: line B at tick 300. -/
def c4_afterB : ButtonState := xButtonsHandler LEFT_BUTTON 300 c4_afterA

/-- C4 fails on the code: with the timestamp initialized to 0, the line-A
interrupt at tick 0 has elapsed 0 ≤ 200 and is discarded by the debounce
filter, so the rate factor is never 1.1 after it and never 0.99 after the
line-B interrupt at tick 300. -/
theorem C4_counterexample :
    ¬ (c4_afterA.g_fSpeed = 11 / 10 ∧ c4_afterB.g_fSpeed = 99 / 100) := by
  intro hcl
  have h1 : c4_afterA.g_fSpeed = 1 := by
    unfold c4_afterA
    exact xButtonsHandler_bounce RIGHT_BUTTON 0 initButtonState (by decide)
  rw [h1] at hcl
  exact absurd hcl.1 (by norm_num)

/-- C4 amended: starting from the initial state (rate factor 1, timestamp
0), the line-A interrupt at tick 0 is discarded by the debounce filter
(elapsed 0 ≤ 200), leaving the rate factor at 1.0; the line-B interrupt at
tick 300 is accepted and multiplies it by 0.9 — the rate factor goes
1.0, then 1.0, then 0.9. -/
theorem C4_amended_trace :
    c4_afterA.g_fSpeed = 1 ∧ c4_afterB.g_fSpeed = 9 / 10 := by
  have h1 : c4_afterA.g_fSpeed = 1 := by
    unfold c4_afterA
    exact xButtonsHandler_bounce RIGHT_BUTTON 0 initButtonState (by decide)
  refine ⟨h1, ?_⟩
  have h2 : c4_afterA.g_ui32TimeStamp = 0 := rfl
  have h3 : c4_afterB.g_fSpeed = c4_afterA.g_fSpeed * (1 - BLINK_RATE) := by
    unfold c4_afterB
    refine xButtonsHandler_down LEFT_BUTTON 300 c4_afterA ?_ (by decide) (by decide)
    rw [h2]
    decide
  rw [h3, h1]
  norm_num [BLINK_RATE]

/-- C5: the rate factor after N accepted speed-up events and M accepted
slow-down events (a spaced train of single-line presses starting from the
initial state) equals `(1.1) ^ N * (0.9) ^ M`; exact in the rational model
of the float arithmetic. -/
theorem C5_rate_roundtrip (evs : List (ℕ × ℕ))
    (hsp : spaced initButtonState.g_ui32TimeStamp evs = true)
    (hv : validEv evs) :
    (runButtonEvents evs initButtonState).g_fSpeed
      = (11 / 10) ^ countUp evs * (9 / 10) ^ countDown evs := by
  rw [runButtonEvents_speed evs initButtonState (by decide) hsp hv]
  show (1 : ℚ) * _ * _ = _
  ring

/-- Witness for C5: one line-A press at tick 300 and one line-B press at
tick 600 yield rate factor `(11/10) ^ 1 * (9/10) ^ 1`. -/
theorem C5_rate_roundtrip_witness :
    (runButtonEvents [(RIGHT_BUTTON, 300), (LEFT_BUTTON, 600)]
        initButtonState).g_fSpeed
      = (11 / 10) ^ countUp [(RIGHT_BUTTON, 300), (LEFT_BUTTON, 600)]
        * (9 / 10) ^ countDown [(RIGHT_BUTTON, 300), (LEFT_BUTTON, 600)] :=
  C5_rate_roundtrip [(RIGHT_BUTTON, 300), (LEFT_BUTTON, 600)]
    (by decide)
    (by
      intro p hp
      simp only [List.mem_cons, List.not_mem_nil, or_false] at hp
      rcases hp with rfl | rfl
      · exact Or.inl rfl
      · exact Or.inr rfl)

/-- C6: each producer iteration advances the absolute wake time by the
base period (1000 ticks) times the rate factor (truncated to ticks, modulo
2^32) — an absolute-time sleep — then sends the fixed payload 100 with
timeout 0: on a non-full queue the send succeeds and appends 100, on a
full queue it returns `wouldBlock` (never `blocked`) and the iteration
completes with the queue unchanged. -/
theorem C6_producer_step (g_fSpeed : ℚ) (s : ProducerState) :
    ((prvQueueSendStep g_fSpeed s).1.xNextWakeTime
        = (s.xNextWakeTime
            + ticksOf ((mainQUEUE_SEND_FREQUENCY_MS : ℚ) * g_fSpeed)) % U32) ∧
    (s.queue.items.length < s.queue.capacity →
      (prvQueueSendStep g_fSpeed s).2 = SendOutcome.ok ∧
      (prvQueueSendStep g_fSpeed s).1.queue.items
        = s.queue.items ++ [ulValueToSend]) ∧
    (¬ s.queue.items.length < s.queue.capacity →
      (prvQueueSendStep g_fSpeed s).2 = SendOutcome.wouldBlock ∧
      (prvQueueSendStep g_fSpeed s).1.queue = s.queue) := by
  refine ⟨rfl, fun hlt => ?_, fun hge => ?_⟩
  · simp [prvQueueSendStep, Queue.send, if_pos hlt]
  · simp [prvQueueSendStep, Queue.send, if_neg hge]

/-- Witness for C6 at rate factor 1 and an empty single-slot queue at wake
time 0: the next wake time is 1000 and the send succeeds, appending 100. -/
theorem C6_producer_step_witness :
    (prvQueueSendStep 1 ⟨0, xQueueCreate 1⟩).2 = SendOutcome.ok ∧
    (prvQueueSendStep 1 ⟨0, xQueueCreate 1⟩).1.queue.items
      = (xQueueCreate 1).items ++ [ulValueToSend] :=
  (C6_producer_step 1 ⟨0, xQueueCreate 1⟩).2.1 (by decide)

/-- C7: the consumer blocks (stays suspended, returning no actions) while
the queue is empty; on receiving 100 it writes the active LED state,
delays `500 * rateFactor` truncated to ticks, then writes the inactive
LED state; on receiving any other value it emits no actions and no
error. -/
theorem C7_consumer_step (g_fSpeed : ℚ) :
    (∀ cap : ℕ, prvQueueReceiveStep g_fSpeed ⟨cap, []⟩ = none) ∧
    (∀ cap : ℕ, ∀ rest : List ℕ,
      prvQueueReceiveStep g_fSpeed ⟨cap, 100 :: rest⟩
        = some
            ([Action.pinWrite (BLUE_LED_PIN ||| RED_LED_PIN) BLUE_LED_PIN,
              Action.taskDelay (ticksOf ((xShortBlock : ℚ) * g_fSpeed)),
              Action.pinWrite (BLUE_LED_PIN ||| RED_LED_PIN) RED_LED_PIN],
             ⟨cap, rest⟩)) ∧
    (∀ cap v : ℕ, ∀ rest : List ℕ, v ≠ 100 →
      prvQueueReceiveStep g_fSpeed ⟨cap, v :: rest⟩ = some ([], ⟨cap, rest⟩)) := by
  refine ⟨fun cap => ?_, fun cap rest => ?_, fun cap v rest hv => ?_⟩
  · simp [prvQueueReceiveStep, Queue.receive, portMAX_DELAY, U32]
  · simp [prvQueueReceiveStep, Queue.receive, prvQueueReceiveBody]
  · simp [prvQueueReceiveStep, Queue.receive, prvQueueReceiveBody, hv]

/-- Witness for C7 at rate factor 1: receiving the value 7 from a
single-slot queue produces no actions and drains the queue. -/
theorem C7_consumer_step_witness :
    prvQueueReceiveStep 1 ⟨1, [7]⟩ = some ([], ⟨1, []⟩) :=
  (C7_consumer_step 1).2.2 1 7 [] (by decide)

/-- C8: for a queue of capacity 1 whose occupancy is within capacity, any
send or receive keeps occupancy within capacity; a send with timeout 0 on
a full queue returns `wouldBlock` immediately (not `blocked`) leaving the
queue unchanged; and a receive with infinite timeout returns a value only
when an item already exists in the queue. -/
theorem C8_queue_contract (q : Queue) (hcap : q.capacity = 1)
    (hocc : q.items.length ≤ q.capacity) :
    (∀ v t : ℕ, ((q.send v t).2).items.length ≤ q.capacity) ∧
    (∀ t : ℕ, ((q.receive t).2).items.length ≤ q.capacity) ∧
    (∀ v : ℕ, q.items.length = q.capacity →
      q.send v 0 = (SendOutcome.wouldBlock, q)) ∧
    (∀ v : ℕ, ∀ q2 : Queue,
      q.receive portMAX_DELAY = (RecvOutcome.ok v, q2) → q.items ≠ []) := by
  refine ⟨fun v t => ?_, fun t => ?_, fun v hfull => ?_, fun v q2 hrecv => ?_⟩
  · unfold Queue.send
    split
    · simpa using by omega
    · split
      all_goals simpa using hocc
  · unfold Queue.receive
    rcases hq : q.items with _ | ⟨x, rest⟩
    · simp only
      split
      all_goals simp [hq, hq ▸ hocc]
    · simp only
      have := hq ▸ hocc
      simp at this ⊢
      omega
  · unfold Queue.send
    rw [if_neg (by omega), if_pos rfl]
  · intro hemp
    unfold Queue.receive at hrecv
    rw [hemp] at hrecv
    simp [portMAX_DELAY, U32] at hrecv

/-- Witness for C8 on the concrete full single-slot queue holding [100]:
sends stay within capacity, and a zero-timeout send of 7 returns
`wouldBlock` with the queue unchanged. -/
theorem C8_queue_contract_witness :
    ((Queue.mk 1 [100]).send 7 3).2.items.length ≤ (Queue.mk 1 [100]).capacity ∧
    (Queue.mk 1 [100]).send 7 0
      = (SendOutcome.wouldBlock, Queue.mk 1 [100]) :=
  ⟨(C8_queue_contract (Queue.mk 1 [100]) rfl (by decide)).1 7 3,
   (C8_queue_contract (Queue.mk 1 [100]) rfl (by decide)).2.2.1 7 (by decide)⟩

/-- C9: because the rate factor initializes to 1 and the timestamp to 0,
any button interrupt at a tick t ≤ 200 after boot is discarded: the rate
factor remains 1 whatever the status mask. -/
theorem C9_first_press_discarded (ui32Status t : ℕ) (ht : t ≤ 200) :
    (xButtonsHandler ui32Status t initButtonState).g_fSpeed = 1 := by
  have h : usub32 t initButtonState.g_ui32TimeStamp ≤ 200 := by
    have : initButtonState.g_ui32TimeStamp = 0 := rfl
    rw [this, usub32_eq_sub t 0 (Nat.zero_le t) (by unfold U32; omega)]
    omega
  exact xButtonsHandler_bounce ui32Status t initButtonState h

/-- Witness for C9: a line-A press at tick 150 after boot leaves the rate
factor at 1. -/
theorem C9_first_press_discarded_witness :
    (xButtonsHandler RIGHT_BUTTON 150 initButtonState).g_fSpeed = 1 :=
  C9_first_press_discarded RIGHT_BUTTON 150 (by norm_num)

/-- C10: when an accepted interrupt reports both buttons pressed (both
status bits set), only the speed-up multiplication runs: the rate factor
is multiplied by `1 + 0.1` and the slow-down branch is skipped, because
RIGHT_BUTTON is tested first in an else-if chain. -/
theorem C10_both_buttons (ui32Status tick : ℕ) (s : ButtonState)
    (h : usub32 tick s.g_ui32TimeStamp > 200)
    (hr : ui32Status &&& RIGHT_BUTTON = RIGHT_BUTTON)
    (_hl : ui32Status &&& LEFT_BUTTON = LEFT_BUTTON) :
    (xButtonsHandler ui32Status tick s).g_fSpeed
      = s.g_fSpeed * (1 + BLINK_RATE) :=
  xButtonsHandler_up ui32Status tick s h hr

/-- Witness for C10: the status mask 17 (both bits) at tick 300 from the
initial state multiplies the rate factor 1 by `1 + BLINK_RATE`. -/
theorem C10_both_buttons_witness :
    (xButtonsHandler 17 300 initButtonState).g_fSpeed
      = initButtonState.g_fSpeed * (1 + BLINK_RATE) :=
  C10_both_buttons 17 300 initButtonState (by decide) (by decide) (by decide)

end Blinky
